import Mathlib

/-!
Shallow embedding of the deterministic computation layer of the tutor-agent
repository: the arithmetic engine (src/tutor_agent/tools/calculator.py, `cal`),
the constants catalog and the formula resolver
(src/tutor_agent/tools/formula.py, `physics_constants_lookup` and
`physics_calc`).

Conventions of the embedding:
- Python floats are modelled as exact rationals, except where a claim is
  specifically about float overflow, where `pyPow` models the overflow
  behaviour of the float power operator.
- Python exceptions are modelled with `Except PyExn`: a value `.error e`
  means the Python call raised exception `e` at that point; `.ok` means the
  function returned normally.
- Natural-language fields of result dictionaries that no claim depends on
  (the interpolated `explanation` strings and the `law_summary` / `phenomena`
  echo fields of success dictionaries) are elided; `result`, `units`,
  `formula` and all `error` fields are modelled verbatim.
- Keyword-argument dictionaries are association lists from strings to
  rationals; Python truthiness of an optional numeric argument (present and
  nonzero) is `tq`.
-/

set_option maxRecDepth 8000

/-- ASCII single-quote character, used to build the error strings of the
source verbatim (they quote the offending name in single quotes). -/
def SQ : String := (Char.ofNat 39).toString

/-- Python str.lower (our data is ASCII plus symbols that lowercasing
leaves unchanged). Defined over the character list so that it reduces
inside the kernel. -/
def pyLower (s : String) : String := ⟨s.data.map Char.toLower⟩

/-- Python str.replace, for the single-character patterns that are the only
ones the source uses (spaces and hyphens). -/
def pyReplace (s pat rep : String) : String :=
  match pat.data with
  | [p] => ⟨(s.data.map (fun c => if c = p then rep.data else [c])).flatten⟩
  | _ => s

/-- Decide whether one list of characters is a leading segment of another. -/
def leadSeg : List Char → List Char → Bool
  | [], _ => true
  | _ :: _, [] => false
  | a :: as, b :: bs => a = b && leadSeg as bs

/-- Decide whether the first list occurs contiguously inside the second. -/
def subSeg (n : List Char) : List Char → Bool
  | [] => leadSeg n []
  | h :: t => leadSeg n (h :: t) || subSeg n t

/-- Python substring test: `needle in hay` on strings. -/
def pyIn (needle hay : String) : Bool := subSeg needle.data hay.data

/-- Normalization applied by the source to law names and constant names:
lowercase, then spaces and hyphens to underscores. -/
def normKey (s : String) : String :=
  pyReplace (pyReplace (pyLower s) " " "_") "-" "_"

/-- Exceptions that the modelled Python code can raise. -/
inductive PyExn where
  | zeroDivisionFloat
  | overflowError
  | unmodelled
deriving DecidableEq, Repr

/-- Message text of an exception, as produced by Python str(e). -/
def exnStr : PyExn → String
  | .zeroDivisionFloat => "float division by zero"
  | .overflowError => "math range error"
  | .unmodelled => "unmodelled"

/-- Python float division: raises ZeroDivisionError on a zero divisor. -/
def pyDiv (a b : ℚ) : Except PyExn ℚ :=
  if b = 0 then .error .zeroDivisionFloat else .ok (a / b)

/-- Overflow threshold of IEEE double precision: an exact result whose
magnitude reaches this value rounds to infinity, which the Python float
power operator reports by raising OverflowError. -/
def maxFloat : ℚ := ((2 ^ 1024 - 2 ^ 970 : ℕ) : ℚ)

/-- Modelled from Python float semantics (not from a repository file): the
float power operator `b ** e`. For an integer-valued exponent it raises
ZeroDivisionError on 0 to a negative power, raises OverflowError when the
exact result does not fit a double, and returns the exact value otherwise.
Non-integer exponents are outside this model and marked `.unmodelled`;
no theorem below touches that case. -/
def pyPow (b e : ℚ) : Except PyExn ℚ :=
  if e.den = 1 then
    if b = 0 ∧ e.num < 0 then .error .zeroDivisionFloat
    else if maxFloat ≤ |b ^ e.num| then .error .overflowError
    else .ok (b ^ e.num)
  else .error .unmodelled

/-- Value returned (not raised) by the calculator `cal`: either a number or
one of its plain error strings. -/
inductive CalRet where
  | num (x : ℚ)
  | msg (s : String)
deriving DecidableEq, Repr

/-- Loop of the divide branch of `cal`: fold division over the remaining
numbers, returning the error string the moment a divisor is zero. -/
def divLoop (acc : ℚ) : List ℚ → CalRet
  | [] => .num acc
  | n :: rest =>
    if n = 0 then .msg "Error: Division by zero" else divLoop (acc / n) rest

/-- Embedding of `cal` from src/tutor_agent/tools/calculator.py. The
list-of-floats argument is already numeric, so the float() conversion and
its ValueError handler are identities here. An `.error` result means the
Python call raised (only the power branch can: it applies `**` with no
try/except around it). -/
def cal (operation : String) (numbers : List ℚ) : Except PyExn CalRet :=
  match numbers with
  | [] => .ok (.msg "Error: No numbers provided")
  | n0 :: rest =>
    let op := pyLower operation
    if op = "add" then .ok (.num ((n0 :: rest).sum))
    else if op = "subtract" then .ok (.num (rest.foldl (· - ·) n0))
    else if op = "multiply" then .ok (.num ((n0 :: rest).foldl (· * ·) 1))
    else if op = "divide" then
      if rest.length = 0 then .ok (.msg "Error: Division requires at least 2 numbers")
      else .ok (divLoop n0 rest)
    else if op = "power" then
      match rest with
      | [e] =>
        match pyPow n0 e with
        | .ok v => .ok (.num v)
        | .error ex => .error ex
      | _ => .ok (.msg "Error: Power operation requires exactly 2 numbers (base, exponent)")
    else if op = "average" then
      .ok (.num ((n0 :: rest).sum / (n0 :: rest).length))
    else if op = "max" then .ok (.num (rest.foldl max n0))
    else if op = "min" then .ok (.num (rest.foldl min n0))
    else .ok (.msg ("Error: Unknown operation " ++ SQ ++ op ++ SQ))

deriving instance DecidableEq for Except

/-- Metadata record of one physical constant, as stored in the
PHYSICS_CONSTANTS table of `physics_constants_lookup`. -/
structure ConstData where
  value : ℚ
  units : String
  symbol : String
  description : String
  category : String
  uncertainty : String
deriving DecidableEq, Repr

/-- The PHYSICS_CONSTANTS table of src/tutor_agent/tools/formula.py,
in source order (Python dicts preserve insertion order). -/
def PHYSICS_CONSTANTS : List (String × ConstData) := [
  ("speed_of_light", ⟨299792458, "m/s", "c", "Speed of light in vacuum", "fundamental", "exact (defined)"⟩),
  ("planck_constant", ⟨6.62607015e-34, "J⋅s", "h", "Planck constant", "fundamental", "exact (defined)"⟩),
  ("reduced_planck_constant", ⟨1.054571817e-34, "J⋅s", "ℏ", "Reduced Planck constant (h/2π)", "fundamental", "exact (defined)"⟩),
  ("elementary_charge", ⟨1.602176634e-19, "C", "e", "Elementary charge", "fundamental", "exact (defined)"⟩),
  ("gravitational_constant", ⟨6.67430e-11, "m³/(kg⋅s²)", "G", "Gravitational constant", "fundamental", "2.2e-5"⟩),
  ("vacuum_permeability", ⟨1.25663706212e-6, "H/m", "μ₀", "Vacuum permeability", "electromagnetic", "1.9e-10"⟩),
  ("vacuum_permittivity", ⟨8.8541878128e-12, "F/m", "ε₀", "Vacuum permittivity", "electromagnetic", "1.3e-10"⟩),
  ("coulomb_constant", ⟨8.9875517923e9, "N⋅m²/C²", "k", "Coulomb constant (1/(4πε₀))", "electromagnetic", "exact (derived)"⟩),
  ("avogadro_number", ⟨6.02214076e23, "1/mol", "Nₐ", "Avogadro number", "atomic", "exact (defined)"⟩),
  ("boltzmann_constant", ⟨1.380649e-23, "J/K", "k_B", "Boltzmann constant", "atomic", "exact (defined)"⟩),
  ("gas_constant", ⟨8.314462618, "J/(mol⋅K)", "R", "Universal gas constant", "atomic", "exact (derived)"⟩),
  ("electron_mass", ⟨9.1093837015e-31, "kg", "mₑ", "Electron rest mass", "atomic", "3.0e-10"⟩),
  ("proton_mass", ⟨1.67262192369e-27, "kg", "mₚ", "Proton rest mass", "atomic", "3.1e-10"⟩),
  ("neutron_mass", ⟨1.67492749804e-27, "kg", "mₙ", "Neutron rest mass", "atomic", "9.5e-10"⟩),
  ("atomic_mass_unit", ⟨1.66053906660e-27, "kg", "u", "Atomic mass unit", "atomic", "5.0e-10"⟩),
  ("standard_gravity", ⟨9.80665, "m/s²", "g", "Standard acceleration due to gravity", "earth", "exact (defined)"⟩),
  ("earth_mass", ⟨5.972e24, "kg", "M⊕", "Earth mass", "earth", "4.4e-4"⟩),
  ("earth_radius", ⟨6.371e6, "m", "R⊕", "Earth mean radius", "earth", "varies"⟩),
  ("solar_mass", ⟨1.98847e30, "kg", "M☉", "Solar mass", "astronomical", "2.0e-4"⟩),
  ("astronomical_unit", ⟨1.495978707e11, "m", "au", "Astronomical unit", "astronomical", "exact (defined)"⟩),
  ("stefan_boltzmann_constant", ⟨5.670374419e-8, "W/(m²⋅K⁴)", "σ", "Stefan-Boltzmann constant", "thermodynamic", "exact (derived)"⟩),
  ("wien_displacement_constant", ⟨2.897771955e-3, "m⋅K", "b", "Wien displacement law constant", "thermodynamic", "exact (derived)"⟩),
  ("fine_structure_constant", ⟨7.2973525693e-3, "dimensionless", "α", "Fine-structure constant", "nuclear", "1.5e-10"⟩),
  ("rydberg_constant", ⟨1.0973731568160e7, "1/m", "R∞", "Rydberg constant", "nuclear", "1.9e-12"⟩)]

/-- Category tags in order of first appearance in the table. Used both for
the no-argument overview (whose grouping dict is built in this order) and
as the modelled iteration order of the available-categories set in the
unknown-category error (a Python set has no specified order; no theorem
below depends on this order). -/
def catsOf (l : List (String × ConstData)) : List String :=
  l.foldl (fun acc p => if acc.contains p.2.category then acc else acc ++ [p.2.category]) []

/-- Grouping of every constant under its category, as the overview branch
builds it. -/
def overviewCats : List (String × List (String × String × String)) :=
  (catsOf PHYSICS_CONSTANTS).map (fun c =>
    (c, (PHYSICS_CONSTANTS.filter (fun p => p.2.category = c)).map
      (fun p => (p.1, p.2.symbol, p.2.description))))

/-- Dictionaries that `physics_constants_lookup` can return. Static
informational strings that never vary (the overview title and usage note,
the multi-match message, the not-found suggestion) are carried by the
constructor rather than repeated as fields. -/
inductive LookupRet where
  | overview (categories : List (String × List (String × String × String))) (total : ℕ)
  | catList (category : String) (constants : List (String × ConstData)) (count : ℕ)
  | catErr (error : String) (available : List String)
  | found (constant : String) (data : ConstData)
  | multiMatch (hits : List (String × ConstData)) (searchTerm : String)
  | notFound (error : String) (available : List String) (total : ℕ)
  | pyNone
deriving DecidableEq, Repr

/-- Python truthiness of an optional string argument: present and
non-empty. -/
def truthyS : Option String → Bool
  | none => false
  | some s => if s = "" then false else true

/-- Substring matches of a normalized query against the table: the query
occurs in the constant key or in the lower-cased description. -/
def matchesFor (q : String) : List (String × ConstData) :=
  PHYSICS_CONSTANTS.filter (fun p => pyIn q p.1 || pyIn q (pyLower p.2.description))

/-- Embedding of `physics_constants_lookup` from
src/tutor_agent/tools/formula.py. The branches mirror the source in order:
overview when neither argument is truthy, then the category branch, then
the name branch (exact match, substring matches, not-found). The final
`.pyNone` arm is unreachable (some argument is truthy there and the earlier
branches have returned) and mirrors the implicit None fall-through of a
Python function body. -/
def physics_constants_lookup (constant_name : Option String) (category : Option String) : LookupRet :=
  if !truthyS constant_name && !truthyS category then
    .overview overviewCats PHYSICS_CONSTANTS.length
  else if truthyS category then
    let c := pyLower (category.getD "")
    let catConsts := PHYSICS_CONSTANTS.filter (fun p => p.2.category = c)
    if !catConsts.isEmpty then
      .catList c catConsts catConsts.length
    else
      .catErr ("Category " ++ SQ ++ c ++ SQ ++ " not found") (catsOf PHYSICS_CONSTANTS)
  else if truthyS constant_name then
    let q := normKey (constant_name.getD "")
    match PHYSICS_CONSTANTS.find? (fun p => p.1 = q) with
    | some p => .found q p.2
    | none =>
      if !(matchesFor q).isEmpty then
        .multiMatch (matchesFor q) q
      else
        .notFound ("Constant " ++ SQ ++ q ++ SQ ++ " not found")
          ((PHYSICS_CONSTANTS.map (·.1)).take 10) (PHYSICS_CONSTANTS.map (·.1)).length
  else .pyNone

/-- Keyword arguments of a `physics_calc` call: a finite mapping from
argument names to numeric values, modelled as an association list. -/
abbrev Kwargs := List (String × ℚ)

/-- Python dict.get with default None. -/
def Kwargs.get (kw : Kwargs) (k : String) : Option ℚ :=
  (kw.find? (fun p => p.1 = k)).map (·.2)

/-- First argument if present, otherwise the second: Python
dict.get(k, default). -/
def oget (a b : Option ℚ) : Option ℚ :=
  match a with
  | some x => some x
  | none => b

/-- Python kwargs.get(k1, kwargs.get(k2)): the snake-case name with its
single-letter alias as fallback. -/
def Kwargs.get2 (kw : Kwargs) (k1 k2 : String) : Option ℚ :=
  oget (kw.get k1) (kw.get k2)

/-- Python truthiness of a numeric value: nonzero. -/
def tqv (x : ℚ) : Bool := if x = 0 then false else true

/-- Python truthiness of an optional numeric argument: present and
nonzero. -/
def tq : Option ℚ → Bool
  | none => false
  | some x => tqv x

/-- Metadata record of one law in the PHYSICS_LAWS table of
`physics_calc`. -/
structure LawInfo where
  summary : String
  formula : String
  phenomena : String
  parameters : List String
  calculates : String
deriving DecidableEq, Repr

/-- The PHYSICS_LAWS table of src/tutor_agent/tools/formula.py, in source
order. -/
def PHYSICS_LAWS : List (String × LawInfo) := [
  ("newton_second_law", ⟨"Newton" ++ SQ ++ "s Second Law states that the acceleration of an object is directly proportional to the net force acting on it and inversely proportional to its mass.",
    "F = ma",
    "Explains how forces cause motion - heavier objects need more force to accelerate, lighter objects accelerate more easily with the same force",
    ["mass (kg)", "acceleration (m/s²)"], "Force (N)"⟩),
  ("kinetic_energy", ⟨"Kinetic energy is the energy possessed by an object due to its motion. It depends on both mass and velocity.",
    "KE = ½mv²",
    "Moving objects can do work - a moving car can push another car, a flying ball can break glass",
    ["mass (kg)", "velocity (m/s)"], "Kinetic Energy (J)"⟩),
  ("potential_energy", ⟨"Gravitational potential energy is the energy stored in an object due to its position in a gravitational field.",
    "PE = mgh",
    "Objects at height can fall and do work - water behind a dam, a rock on a cliff",
    ["mass (kg)", "height (m)", "gravity (m/s², optional)"], "Potential Energy (J)"⟩),
  ("momentum", ⟨"Momentum is the quantity of motion of a moving body, equal to the product of its mass and velocity.",
    "p = mv",
    "Heavy, fast-moving objects are harder to stop - why trucks take longer to brake than cars",
    ["mass (kg)", "velocity (m/s)"], "Momentum (kg⋅m/s)"⟩),
  ("wave_equation", ⟨"The wave equation relates the speed of a wave to its frequency and wavelength. For light waves, speed equals the speed of light.",
    "v = fλ (or c = fλ for light)",
    "Explains all wave phenomena - sound waves, light waves, radio waves, ocean waves",
    ["frequency (Hz)", "wavelength (m)", "speed (m/s) - need 2 of 3"], "Missing wave parameter"⟩),
  ("ohms_law", ⟨"Ohm" ++ SQ ++ "s Law states that current through a conductor is directly proportional to voltage and inversely proportional to resistance.",
    "V = IR, P = VI = I²R = V²/R",
    "Fundamental principle of electrical circuits - how voltage, current, and resistance relate in all electrical devices",
    ["voltage (V)", "current (A)", "resistance (Ω) - need 2 of 3"], "Missing electrical parameter and power"⟩),
  ("coulombs_law", ⟨"Coulomb" ++ SQ ++ "s Law describes the electrostatic force between two point charges, proportional to their charges and inversely proportional to distance squared.",
    "F = k|q₁q₂|/r²",
    "Explains electric forces - why clothes stick after dryer, lightning, how atoms bond",
    ["charge1 (C)", "charge2 (C)", "distance (m)"], "Electrostatic Force (N)"⟩),
  ("ideal_gas_law", ⟨"The Ideal Gas Law relates pressure, volume, temperature, and amount of gas for an ideal gas.",
    "PV = nRT",
    "Explains gas behavior - why balloons expand when heated, how pressure cookers work, atmospheric pressure changes",
    ["pressure (Pa)", "volume (m³)", "moles (mol)", "temperature (K) - need 3 of 4"], "Missing gas parameter"⟩),
  ("snells_law", ⟨"Snell" ++ SQ ++ "s Law describes how light bends when passing from one medium to another with different refractive indices.",
    "n₁sin(θ₁) = n₂sin(θ₂)",
    "Explains refraction - why objects look bent in water, how lenses work, fiber optics, mirages",
    ["n1 (refractive index)", "n2 (refractive index)", "theta1 (degrees)"], "Refraction angle (degrees)"⟩)]

/-- Names of the known laws, in table order. -/
def lawNames : List String := PHYSICS_LAWS.map (·.1)

/-- Lookup of a law in the table. -/
def lawFind (law : String) : Option LawInfo :=
  (PHYSICS_LAWS.find? (fun p => p.1 = law)).map (·.2)

/-- Comma-space join of a list of strings, as str.join produces it. -/
def joinComma : List String → String
  | [] => ""
  | [s] => s
  | s :: rest => s ++ ", " ++ joinComma rest

/-- The unknown-law error message. -/
def unknownLawMsg (law : String) : String :=
  "Unknown law " ++ SQ ++ law ++ SQ ++ ". Available laws: " ++ joinComma lawNames

/-- Numeric result of a successful law computation: a single value or a
dict of named values (as the Ohm branch returns). -/
inductive RVal where
  | num (x : ℚ)
  | map (l : List (String × ℚ))
deriving DecidableEq, Repr

/-- Units of a result: a single unit string or a dict of named units. -/
inductive UVal where
  | u (s : String)
  | um (l : List (String × String))
deriving DecidableEq, Repr

/-- Dictionaries that `physics_calc` can return (or its implicit None).
The interpolated explanation string and the law_summary / phenomena echo
fields of success dictionaries are elided: no claim concerns them. The
refracted-angle result of the Snell branch is a real number, computed by
the completion relation `PhysicsCalc` below. -/
inductive PhysRet where
  | ok (result : RVal) (units : UVal) (formula : String)
  | okAngle (theta2deg : ℝ) (units : String) (formula : String)
  | errS (error : String)
  | errLaws (error : String) (available : List (String × String))
  | info (li : LawInfo)
  | pyNone

/-- Outcome of the computable part of the `physics_calc` body: either a
completed return value, or control reaching the transcendental part of the
Snell branch with the three truthy parameters. -/
inductive BodyOut where
  | ret (r : PhysRet)
  | snell (n1 n2 theta1 : ℚ)

/-- Condition under which `physics_calc` answers with law information
only: kwargs.get(info_only, False) is truthy, or kwargs is empty, or
info_only is the single kwarg. -/
def infoCond (kw : Kwargs) : Bool :=
  tq (kw.get "info_only") || kw.isEmpty || (kw.length = 1 && (kw.get "info_only").isSome)

/-- Wave-equation branch of `physics_calc` (law lines for v = fλ): f and w
are the frequency and wavelength arguments, c the speed argument after its
default of 3e8. -/
def waveBranch (f w : Option ℚ) (c : ℚ) : Except PyExn BodyOut :=
  if tq f && tq w then
    .ok (.ret (.ok (.num (f.getD 0 * w.getD 0)) (.u "m/s") "v = fλ (or c = fλ for light)"))
  else if tq f && tqv c then
    match pyDiv c (f.getD 0) with
    | .ok wl => .ok (.ret (.ok (.num wl) (.u "m") "λ = c/f"))
    | .error e => .error e
  else if tq w && tqv c then
    match pyDiv c (w.getD 0) with
    | .ok fr => .ok (.ret (.ok (.num fr) (.u "Hz") "f = c/λ"))
    | .error e => .error e
  else
    .ok (.ret (.errS "Need at least 2 of: frequency, wavelength, speed"))

/-- Ohm-law branch of `physics_calc`: the three two-of-three cases, each
computing the missing quantity and the power with the matching power
formula, else the need-two error. -/
def ohmsBranch (V I R : Option ℚ) : Except PyExn BodyOut :=
  if tq V && tq I then
    match pyDiv (V.getD 0) (I.getD 0) with
    | .ok res =>
      .ok (.ret (.ok (.map [("resistance", res), ("power", V.getD 0 * I.getD 0)])
        (.um [("resistance", "Ω (Ohms)"), ("power", "W (Watts)")])
        "V = IR, P = VI = I²R = V²/R"))
    | .error e => .error e
  else if tq V && tq R then
    match pyDiv (V.getD 0) (R.getD 0), pyDiv (V.getD 0 ^ 2) (R.getD 0) with
    | .ok cur, .ok pw =>
      .ok (.ret (.ok (.map [("current", cur), ("power", pw)])
        (.um [("current", "A (Amperes)"), ("power", "W (Watts)")])
        "I = V/R, P = V²/R"))
    | .error e, _ => .error e
    | _, .error e => .error e
  else if tq I && tq R then
    .ok (.ret (.ok (.map [("voltage", I.getD 0 * R.getD 0), ("power", I.getD 0 ^ 2 * R.getD 0)])
      (.um [("voltage", "V (Volts)"), ("power", "W (Watts)")])
      "V = IR, P = I²R"))
  else
    .ok (.ret (.errS "Need at least 2 of: voltage (V), current (I), resistance (R)"))

/-- Ideal-gas-law branch of `physics_calc`: count the known quantities
among pressure, volume, moles, temperature; fewer than 3 fails, otherwise
the branch for whichever is None computes it, and when all four are known
no branch fires and the function returns None. R is the gas-constant
argument after its default of 8.314. -/
def gasBranch (P V n : Option ℚ) (R : ℚ) (T : Option ℚ) : Except PyExn BodyOut :=
  let known := [P, V, n, T].countP Option.isSome
  if known < 3 then
    .ok (.ret (.errS "Need at least 3 of: pressure (Pa), volume (m³), moles (mol), temperature (K)"))
  else if P.isNone then
    match pyDiv (n.getD 0 * R * T.getD 0) (V.getD 0) with
    | .ok pres => .ok (.ret (.ok (.num pres) (.u "Pa (Pascals)") "P = nRT/V"))
    | .error e => .error e
  else if V.isNone then
    match pyDiv (n.getD 0 * R * T.getD 0) (P.getD 0) with
    | .ok vol => .ok (.ret (.ok (.num vol) (.u "m³") "V = nRT/P"))
    | .error e => .error e
  else if T.isNone then
    match pyDiv (P.getD 0 * V.getD 0) (n.getD 0 * R) with
    | .ok temp => .ok (.ret (.ok (.num temp) (.u "K (Kelvin)") "T = PV/(nR)"))
    | .error e => .error e
  else if n.isNone then
    match pyDiv (P.getD 0 * V.getD 0) (R * T.getD 0) with
    | .ok mol => .ok (.ret (.ok (.num mol) (.u "mol") "n = PV/(RT)"))
    | .error e => .error e
  else
    .ok (.ret .pyNone)

/-- Snell-law branch of `physics_calc` up to its transcendental part: with
all of n1, n2, theta1 truthy, control reaches the sine computation
(`.snell`); otherwise the need-parameters error. The unused reads of
theta2/angle2 in the source are elided. -/
def snellBranch (n1 n2 theta1 : Option ℚ) : Except PyExn BodyOut :=
  if tq n1 && tq n2 && tq theta1 then
    .ok (.snell (n1.getD 0) (n2.getD 0) (theta1.getD 0))
  else
    .ok (.ret (.errS "Need refractive indices n1, n2 and incident angle theta1"))

/-- Embedding of `physics_calc` from src/tutor_agent/tools/formula.py up
to the transcendental computation of the Snell branch (see `PhysicsCalc`
for the completion). `.error` models an exception raised inside the try
block; every argument extraction and branch mirrors the source lines in
order, with the four multi-directional law bodies factored into the branch
functions above. The formula strings of the success dictionaries are the
law_info.get values of the source, which for registered laws come from the
table and for the `force` alias fall back to the same default string. -/
def physicsBody (law0 : String) (kw : Kwargs) : Except PyExn BodyOut :=
  let law := normKey law0
  if infoCond kw then
    match lawFind law with
    | some li => .ok (.ret (.info li))
    | none => .ok (.ret (.errS (unknownLawMsg law)))
  else
  if law = "newton_second_law" || law = "force" then
    match kw.get2 "mass" "m", kw.get2 "acceleration" "a" with
    | some m, some a => .ok (.ret (.ok (.num (m * a)) (.u "N (Newtons)") "F = ma"))
    | _, _ => .ok (.ret (.errS "Missing required parameters: mass (kg) and acceleration (m/s²)"))
  else if law = "kinetic_energy" then
    match kw.get2 "mass" "m", kw.get2 "velocity" "v" with
    | some m, some v => .ok (.ret (.ok (.num (0.5 * m * v ^ 2)) (.u "J (Joules)") "KE = ½mv²"))
    | _, _ => .ok (.ret (.errS "Missing required parameters: mass (kg) and velocity (m/s)"))
  else if law = "potential_energy" then
    let g := (oget (kw.get "gravity") (kw.get "g")).getD 9.81
    match kw.get2 "mass" "m", kw.get2 "height" "h" with
    | some m, some h => .ok (.ret (.ok (.num (m * g * h)) (.u "J (Joules)") "PE = mgh"))
    | _, _ => .ok (.ret (.errS "Missing required parameters: mass (kg) and height (m)"))
  else if law = "momentum" then
    match kw.get2 "mass" "m", kw.get2 "velocity" "v" with
    | some m, some v => .ok (.ret (.ok (.num (m * v)) (.u "kg⋅m/s") "p = mv"))
    | _, _ => .ok (.ret (.errS "Missing required parameters: mass (kg) and velocity (m/s)"))
  else if law = "wave_equation" then
    waveBranch (kw.get2 "frequency" "f")
      (oget (kw.get "wavelength") (oget (kw.get "lambda") (kw.get "l")))
      ((oget (kw.get "speed") (kw.get "c")).getD 3e8)
  else if law = "ohms_law" then
    ohmsBranch (kw.get2 "voltage" "V") (kw.get2 "current" "I") (kw.get2 "resistance" "R")
  else if law = "coulombs_law" then
    let k := (kw.get "k").getD 8.99e9
    match kw.get2 "charge1" "q1", kw.get2 "charge2" "q2", kw.get2 "distance" "r" with
    | some q1, some q2, some r =>
      match pyDiv (k * |q1 * q2|) (r ^ 2) with
      | .ok force => .ok (.ret (.ok (.num force) (.u "N (Newtons)") "F = k|q₁q₂|/r²"))
      | .error e => .error e
    | _, _, _ => .ok (.ret (.errS "Missing required parameters: charge1 (C), charge2 (C), distance (m)"))
  else if law = "ideal_gas_law" then
    gasBranch (kw.get2 "pressure" "P") (kw.get2 "volume" "V") (kw.get2 "moles" "n")
      ((kw.get "R").getD 8.314) (kw.get2 "temperature" "T")
  else if law = "snells_law" then
    snellBranch (kw.get2 "n1" "index1") (kw.get2 "n2" "index2") (kw.get2 "theta1" "angle1")
  else
    .ok (.ret (.errLaws (unknownLawMsg law) (PHYSICS_LAWS.map (fun p => (p.1, p.2.summary)))))

/-- The quantity n1 * sin(radians(theta1)) / n2 computed by the Snell
branch (math.radians converts degrees to radians). -/
noncomputable def sinTheta2 (n1 n2 theta1 : ℚ) : ℝ :=
  ((n1 : ℝ) * Real.sin ((theta1 : ℝ) * Real.pi / 180)) / (n2 : ℝ)

/-- Full behaviour of `physics_calc` law kw, as a relation because the
Snell branch compares a transcendental quantity against 1. `ret` is a
normal return from the computable part; `exn` is the except-handler of the
source converting a raised exception into the Calculation error
dictionary; `tir` and `refr` complete the Snell branch: total internal
reflection when abs(sin_theta2) > 1, otherwise the refracted angle in
degrees (math.degrees of math.asin). -/
inductive PhysicsCalc (law : String) (kw : Kwargs) : PhysRet → Prop where
  | ret (r : PhysRet) : physicsBody law kw = .ok (.ret r) → PhysicsCalc law kw r
  | exn (ex : PyExn) : physicsBody law kw = .error ex →
      PhysicsCalc law kw (.errS ("Calculation error: " ++ exnStr ex))
  | tir (n1 n2 theta1 : ℚ) : physicsBody law kw = .ok (.snell n1 n2 theta1) →
      1 < |sinTheta2 n1 n2 theta1| →
      PhysicsCalc law kw (.errS "Total internal reflection occurs - no refracted ray")
  | refr (n1 n2 theta1 : ℚ) : physicsBody law kw = .ok (.snell n1 n2 theta1) →
      ¬ 1 < |sinTheta2 n1 n2 theta1| →
      PhysicsCalc law kw
        (.okAngle (Real.arcsin (sinTheta2 n1 n2 theta1) * 180 / Real.pi) "degrees" "n₁sin(θ₁) = n₂sin(θ₂)")

/-! Helper lemmas about the substring test. -/

theorem leadSeg_subset {n h : List Char} (hl : leadSeg n h = true) : ∀ c ∈ n, c ∈ h := by
  induction n generalizing h with
  | nil => intro c hc; cases hc
  | cons a as ih =>
    cases h with
    | nil => cases hl
    | cons b bs =>
      simp only [leadSeg, Bool.and_eq_true, decide_eq_true_eq] at hl
      obtain ⟨hab, hrest⟩ := hl
      intro c hc
      rcases List.mem_cons.mp hc with hca | hcs
      · subst hca; subst hab; exact List.mem_cons_self _ _
      · exact List.mem_cons_of_mem _ (ih hrest c hcs)

theorem subSeg_subset {n h : List Char} (hs : subSeg n h = true) : ∀ c ∈ n, c ∈ h := by
  induction h with
  | nil =>
    cases n with
    | nil => intro c hc; cases hc
    | cons a as => cases hs
  | cons x t ih =>
    simp only [subSeg, Bool.or_eq_true] at hs
    rcases hs with hlead | hsub
    · exact leadSeg_subset hlead
    · intro c hc; exact List.mem_cons_of_mem _ (ih hsub c hc)

theorem leadSeg_refl (n : List Char) : leadSeg n n = true := by
  induction n with
  | nil => rfl
  | cons a as ih => simp [leadSeg, ih]

theorem subSeg_single {c : Char} {l : List Char} : subSeg [c] l = true ↔ c ∈ l := by
  induction l with
  | nil => simp [subSeg, leadSeg]
  | cons x t ih =>
    simp only [subSeg, leadSeg, Bool.or_eq_true, Bool.and_eq_true, decide_eq_true_eq]
    simp [ih, List.mem_cons]

theorem pyIn_self (s : String) : pyIn s s = true := by
  cases s with
  | mk l =>
    cases l with
    | nil => rfl
    | cons a as => simp [pyIn, subSeg, leadSeg_refl]

/-- Every description in the constants table, lower-cased, is free of
underscores. -/
theorem descriptions_no_underscore :
    ∀ p ∈ PHYSICS_CONSTANTS, pyIn "_" (pyLower p.2.description) = false := by decide

unseal Rat.add Rat.sub Rat.mul Rat.inv Rat.ofScientific in
/-- Claim C1 as stated is false: when both a name and a category are
supplied, the result is NOT the call with only the name. At
constant_name = "speed_of_light", category = "atomic" the call answers
with the atomic category listing, while the name-only call answers with
the speed-of-light record. -/
theorem C1_counterexample :
    physics_constants_lookup (some "speed_of_light") (some "atomic") ≠
      physics_constants_lookup (some "speed_of_light") none := by decide

/-- Claim C1, amended: when both a name and a non-empty category are
supplied, the result is the same as the call with only the category
supplied: category takes precedence and the name is ignored (not an
error). -/
theorem C1_category_precedence (n c : String) (hc : c ≠ "") :
    physics_constants_lookup (some n) (some c) =
      physics_constants_lookup none (some c) := by
  unfold physics_constants_lookup
  simp [truthyS, hc]

/-- Witness for C1_category_precedence at n = "speed_of_light",
c = "atomic". -/
theorem C1_category_precedence_witness :
    "atomic" ≠ "" ∧
    physics_constants_lookup (some "speed_of_light") (some "atomic") =
      physics_constants_lookup none (some "atomic") :=
  ⟨by decide, C1_category_precedence "speed_of_light" "atomic" (by decide)⟩

/-- Claim C8: for every truthy name query with no exact key match, if the
normalized query is a substring of at least one key or lower-cased
description (even exactly one), the lookup answers with the
partial-matches dictionary naming the matching constants — never a
silently selected single constant value. -/
theorem C8_partial_match_requires_disambiguation (name : String)
    (hname : name ≠ "")
    (hexact : PHYSICS_CONSTANTS.find? (fun p => p.1 = normKey name) = none)
    (hhits : matchesFor (normKey name) ≠ []) :
    physics_constants_lookup (some name) none =
      .multiMatch (matchesFor (normKey name)) (normKey name) := by
  unfold physics_constants_lookup
  simp only [truthyS, Option.getD_some]
  rw [if_neg hname]
  simp only [Bool.not_true, Bool.not_false, Bool.false_and]
  rw [if_neg Bool.false_ne_true, if_neg Bool.false_ne_true]
  simp only [if_true]
  rw [hexact]
  cases hl : matchesFor (normKey name) with
  | nil => exact absurd hl hhits
  | cons a t => rfl

unseal Rat.add Rat.sub Rat.mul Rat.inv Rat.ofScientific in
/-- Witness for C8 at name = "avogadro": there is no exact key match, the
query matches exactly one constant by substring, and the lookup still
answers with the partial-matches dictionary naming it. -/
theorem C8_witness :
    ("avogadro" : String) ≠ "" ∧
    PHYSICS_CONSTANTS.find? (fun p => p.1 = normKey "avogadro") = none ∧
    matchesFor (normKey "avogadro") ≠ [] ∧
    matchesFor (normKey "avogadro") =
      [("avogadro_number", ⟨6.02214076e23, "1/mol", "Nₐ", "Avogadro number", "atomic", "exact (defined)"⟩)] ∧
    physics_constants_lookup (some "avogadro") none =
      .multiMatch (matchesFor (normKey "avogadro")) (normKey "avogadro") :=
  ⟨by decide, by decide, by decide, by decide,
    C8_partial_match_requires_disambiguation "avogadro" (by decide) (by decide) (by decide)⟩

/-- Character-level form of the previous fact: no lower-cased description
in the table contains the underscore character. -/
theorem descriptions_no_underscore_mem :
    ∀ p ∈ PHYSICS_CONSTANTS, Char.ofNat 95 ∉ (pyLower p.2.description).data := by decide

/-- Claim C10: the substring matching of the lookup compares the
underscore-normalized query against descriptions that keep their spaces,
so a query whose normalized form contains an underscore and is a substring
of no constant key can never match a description either: the lookup
answers with the not-found dictionary (first ten names and the total
count). -/
theorem C10_multiword_query_never_matches_descriptions (name : String)
    (hund : pyIn "_" (normKey name) = true)
    (hkeys : ∀ k ∈ PHYSICS_CONSTANTS.map (·.1), pyIn (normKey name) k = false) :
    physics_constants_lookup (some name) none =
      .notFound ("Constant " ++ SQ ++ normKey name ++ SQ ++ " not found")
        ((PHYSICS_CONSTANTS.map (·.1)).take 10) (PHYSICS_CONSTANTS.map (·.1)).length := by
  have hname : name ≠ "" := by
    intro h; subst h; exact absurd hund (by decide)
  have hu : Char.ofNat 95 ∈ (normKey name).data :=
    subSeg_subset hund _ (by decide)
  have hexact : PHYSICS_CONSTANTS.find? (fun p => p.1 = normKey name) = none := by
    rw [List.find?_eq_none]
    intro p hp h
    rw [decide_eq_true_eq] at h
    have hk := hkeys p.1 (List.mem_map_of_mem _ hp)
    rw [h, pyIn_self] at hk
    exact Bool.noConfusion hk
  have hmat : matchesFor (normKey name) = [] := by
    unfold matchesFor
    rw [List.filter_eq_nil_iff]
    intro p hp
    simp only [Bool.or_eq_true, not_or]
    constructor
    · rw [hkeys p.1 (List.mem_map_of_mem _ hp)]
      exact Bool.false_ne_true
    · intro hd
      exact descriptions_no_underscore_mem p hp (subSeg_subset hd _ hu)
  unfold physics_constants_lookup
  simp only [truthyS, Option.getD_some]
  rw [if_neg hname]
  simp only [Bool.not_true, Bool.not_false, Bool.false_and]
  rw [if_neg Bool.false_ne_true, if_neg Bool.false_ne_true]
  simp only [if_true]
  rw [hexact, hmat]
  rfl

/-- Witness for C10 at name = "rest mass": the underscored query matches
no key, three descriptions contain the spaced phrase, and the lookup
answers not-found. -/
theorem C10_witness :
    pyIn "_" (normKey "rest mass") = true ∧
    (PHYSICS_CONSTANTS.map (·.1)).all (fun k => !pyIn (normKey "rest mass") k) = true ∧
    PHYSICS_CONSTANTS.countP (fun p => pyIn "rest mass" (pyLower p.2.description)) = 3 ∧
    physics_constants_lookup (some "rest mass") none =
      .notFound ("Constant " ++ SQ ++ normKey "rest mass" ++ SQ ++ " not found")
        ((PHYSICS_CONSTANTS.map (·.1)).take 10) (PHYSICS_CONSTANTS.map (·.1)).length :=
  ⟨by decide, by decide, by decide,
    C10_multiword_query_never_matches_descriptions "rest mass" (by decide) (by decide)⟩

unseal Rat.add Rat.sub Rat.mul Rat.inv Rat.ofScientific in
/-- Claim C3 as stated is false for the arithmetic engine: the power
branch applies the float power operator with no exception handler around
it, and at base 2^600 (an exactly representable double) and exponent 2 the
float power overflows, so cal raises an uncaught OverflowError instead of
returning a value or a structured error string. -/
theorem C3_counterexample :
    cal "power" [((2 ^ 600 : ℕ) : ℚ), 2] = .error .overflowError := by decide

unseal Rat.add Rat.sub Rat.mul Rat.inv Rat.ofScientific in
/-- Claim C3, amended: every arithmetic-engine call outside the power
branch returns a structured result (a number or an error string) and never
raises; the power branch returns the exact value whenever the float power
does not overflow (and the base is not 0 with a negative exponent), but
overflow escapes as an uncaught exception (see the counterexample); and a
numeric failure inside a law branch of physics_calc is reported as a
Calculation error result, shown here for the ideal gas law with moles = 0
raising ZeroDivisionError. -/
theorem C3_structured_results :
    (∀ (op : String) (ns : List ℚ), pyLower op ≠ "power" → ∃ r, cal op ns = .ok r) ∧
    (∀ (b : ℚ) (e : ℤ), ¬(b = 0 ∧ e < 0) → |b ^ e| < maxFloat →
      cal "power" [b, (e : ℚ)] = .ok (.num (b ^ e))) ∧
    PhysicsCalc "ideal_gas_law" [("pressure", 1), ("volume", 1), ("moles", 0)]
      (.errS "Calculation error: float division by zero") := by
  refine ⟨?_, ?_, ?_⟩
  · intro op ns h
    cases ns with
    | nil => exact ⟨_, rfl⟩
    | cons n0 rest =>
      simp only [cal]
      repeat' split
      all_goals exact ⟨_, rfl⟩
  · intro b e h1 h2
    have hstep : cal "power" [b, (e : ℚ)] =
        match pyPow b ((e : ℤ) : ℚ) with
        | .ok v => .ok (.num v)
        | .error ex => .error ex := rfl
    rw [hstep]
    unfold pyPow
    rw [Rat.den_intCast, Rat.num_intCast]
    rw [if_pos rfl, if_neg h1, if_neg (not_le.mpr h2)]
  · have hs : "Calculation error: " ++ exnStr PyExn.zeroDivisionFloat =
        "Calculation error: float division by zero" := by decide
    exact hs ▸ PhysicsCalc.exn PyExn.zeroDivisionFloat rfl

unseal Rat.add Rat.sub Rat.mul Rat.inv Rat.ofScientific in
/-- Witness for C3_structured_results: the non-power clause at multiply,
and the power clause at base 2 and exponent 10, where nothing overflows
and 1024 is returned. -/
theorem C3_witness :
    pyLower "multiply" ≠ "power" ∧ cal "multiply" [2, 3] = .ok (.num 6) ∧
    ¬((2 : ℚ) = 0 ∧ (10 : ℤ) < 0) ∧ |(2 : ℚ) ^ (10 : ℤ)| < maxFloat ∧
    cal "power" [2, ((10 : ℤ) : ℚ)] = .ok (.num ((2 : ℚ) ^ (10 : ℤ))) :=
  ⟨by decide, by decide, by decide, by decide,
    C3_structured_results.2.1 2 10 (by decide) (by decide)⟩

/-- A present nonzero argument is truthy. -/
theorem tq_some_ne {x : ℚ} (h : x ≠ 0) : tq (some x) = true := by
  simp [tq, tqv, h]

/-- A nonzero plain value is truthy. -/
theorem tqv_ne {x : ℚ} (h : x ≠ 0) : tqv x = true := by
  simp [tqv, h]

/-- Division by a nonzero divisor does not raise. -/
theorem pyDiv_ok {a b : ℚ} (h : b ≠ 0) : pyDiv a b = .ok (a / b) := by
  simp [pyDiv, h]

unseal Rat.add Rat.sub Rat.mul Rat.inv Rat.ofScientific in
/-- Claim C2 is broken by the code on exactly the input it names: with all
four ideal-gas quantities supplied, physics_calc falls through every
branch of the law and returns Python None — a value that is neither a
success dictionary nor an error dictionary, violating the stated
invariant. -/
theorem C2_all_known_returns_none :
    physicsBody "ideal_gas_law"
      [("pressure", 1), ("volume", 1), ("moles", 1), ("temperature", 1)] =
      .ok (.ret .pyNone) := rfl

unseal Rat.add Rat.sub Rat.mul Rat.inv Rat.ofScientific in
/-- Claim C6 as stated is false at the call that supplies none of the four
quantities: with no arguments at all, physics_calc takes the info-only
branch and returns the descriptive law dictionary, not the
InsufficientParameters error. -/
theorem C6_counterexample :
    physicsBody "ideal_gas_law" [] =
      .ok (.ret (.info ⟨"The Ideal Gas Law relates pressure, volume, temperature, and amount of gas for an ideal gas.",
        "PV = nRT",
        "Explains gas behavior - why balloons expand when heated, how pressure cookers work, atmospheric pressure changes",
        ["pressure (Pa)", "volume (m³)", "moles (mol)", "temperature (K) - need 3 of 4"],
        "Missing gas parameter"⟩)) := rfl

unseal Rat.add Rat.sub Rat.mul Rat.inv Rat.ofScientific in
/-- Claim C6, amended: supplying nonzero pressure, volume and moles with
temperature omitted computes T = PV/(nR), with R defaulting to 8.314
unless overridden by the R argument; and every call that does not trigger
the info-only branch and supplies fewer than 3 of the four quantities
fails with the need-at-least-3 error (a bare call with no arguments
instead returns the law info, as the counterexample shows). -/
theorem C6_ideal_gas_amended :
    (∀ P V n : ℚ, P ≠ 0 → V ≠ 0 → n ≠ 0 →
      physicsBody "ideal_gas_law" [("pressure", P), ("volume", V), ("moles", n)] =
        .ok (.ret (.ok (.num ((P * V) / (n * 8.314))) (.u "K (Kelvin)") "T = PV/(nR)"))) ∧
    (∀ P V n R : ℚ, n ≠ 0 → R ≠ 0 →
      physicsBody "ideal_gas_law" [("pressure", P), ("volume", V), ("moles", n), ("R", R)] =
        .ok (.ret (.ok (.num ((P * V) / (n * R))) (.u "K (Kelvin)") "T = PV/(nR)"))) ∧
    (∀ kw : Kwargs, infoCond kw = false →
      [kw.get2 "pressure" "P", kw.get2 "volume" "V", kw.get2 "moles" "n",
        kw.get2 "temperature" "T"].countP Option.isSome < 3 →
      physicsBody "ideal_gas_law" kw =
        .ok (.ret (.errS "Need at least 3 of: pressure (Pa), volume (m³), moles (mol), temperature (K)"))) := by
  refine ⟨?_, ?_, ?_⟩
  · intro P V n hP hV hn
    have hstep : physicsBody "ideal_gas_law" [("pressure", P), ("volume", V), ("moles", n)] =
        gasBranch (some P) (some V) (some n) 8.314 none := rfl
    rw [hstep]
    show (match pyDiv (P * V) (n * 8.314) with
      | Except.ok temp =>
        (Except.ok (BodyOut.ret (.ok (.num temp) (.u "K (Kelvin)") "T = PV/(nR)")) : Except PyExn BodyOut)
      | Except.error e => Except.error e) = _
    rw [pyDiv_ok (mul_ne_zero hn (by norm_num))]
  · intro P V n R hn hR
    have hstep : physicsBody "ideal_gas_law"
        [("pressure", P), ("volume", V), ("moles", n), ("R", R)] =
        gasBranch (some P) (some V) (some n) R none := rfl
    rw [hstep]
    show (match pyDiv (P * V) (n * R) with
      | Except.ok temp =>
        (Except.ok (BodyOut.ret (.ok (.num temp) (.u "K (Kelvin)") "T = PV/(nR)")) : Except PyExn BodyOut)
      | Except.error e => Except.error e) = _
    rw [pyDiv_ok (mul_ne_zero hn hR)]
  · intro kw hinfo hcount
    simp only [physicsBody]
    rw [hinfo]
    rw [if_neg Bool.false_ne_true]
    show gasBranch (kw.get2 "pressure" "P") (kw.get2 "volume" "V") (kw.get2 "moles" "n")
      ((kw.get "R").getD 8.314) (kw.get2 "temperature" "T") = _
    simp only [gasBranch]
    rw [if_pos hcount]

unseal Rat.add Rat.sub Rat.mul Rat.inv Rat.ofScientific in
/-- Witness for C6_ideal_gas_amended: pressure 2, volume 3, moles 1 gives
T = 6/8.314 = 3000/4157 kelvin; and supplying only pressure fails with
the need-at-least-3 error. -/
theorem C6_witness :
    (2 : ℚ) ≠ 0 ∧ (3 : ℚ) ≠ 0 ∧ (1 : ℚ) ≠ 0 ∧
    physicsBody "ideal_gas_law" [("pressure", 2), ("volume", 3), ("moles", 1)] =
      .ok (.ret (.ok (.num (3000 / 4157)) (.u "K (Kelvin)") "T = PV/(nR)")) ∧
    infoCond [("pressure", 1)] = false ∧
    physicsBody "ideal_gas_law" [("pressure", 1)] =
      .ok (.ret (.errS "Need at least 3 of: pressure (Pa), volume (m³), moles (mol), temperature (K)")) := by
  refine ⟨by norm_num, by norm_num, by norm_num, ?_, rfl, ?_⟩
  · have h := (C6_ideal_gas_amended.1) 2 3 1 (by norm_num) (by norm_num) (by norm_num)
    rw [h]
    rfl
  · exact (C6_ideal_gas_amended.2.2) [("pressure", 1)] rfl (by decide)

/-- Claim C4: for nonzero values, each pair of known Ohm-law quantities
computes the missing third and the power with the matching power formula:
voltage+current gives resistance V/I and power VI; voltage+resistance
gives current V/R and power V²/R; current+resistance gives voltage IR and
power I²R. -/
theorem C4_ohms_pairs (V I R : ℚ) (hV : V ≠ 0) (hI : I ≠ 0) (hR : R ≠ 0) :
    physicsBody "ohms_law" [("voltage", V), ("current", I)] =
      .ok (.ret (.ok (.map [("resistance", V / I), ("power", V * I)])
        (.um [("resistance", "Ω (Ohms)"), ("power", "W (Watts)")])
        "V = IR, P = VI = I²R = V²/R")) ∧
    physicsBody "ohms_law" [("voltage", V), ("resistance", R)] =
      .ok (.ret (.ok (.map [("current", V / R), ("power", V ^ 2 / R)])
        (.um [("current", "A (Amperes)"), ("power", "W (Watts)")])
        "I = V/R, P = V²/R")) ∧
    physicsBody "ohms_law" [("current", I), ("resistance", R)] =
      .ok (.ret (.ok (.map [("voltage", I * R), ("power", I ^ 2 * R)])
        (.um [("voltage", "V (Volts)"), ("power", "W (Watts)")])
        "V = IR, P = I²R")) := by
  refine ⟨?_, ?_, ?_⟩
  · have hstep : physicsBody "ohms_law" [("voltage", V), ("current", I)] =
        ohmsBranch (some V) (some I) none := rfl
    rw [hstep]
    simp only [ohmsBranch, tq_some_ne hV, tq_some_ne hI, pyDiv_ok hI, Option.getD_some]
    rfl
  · have hstep : physicsBody "ohms_law" [("voltage", V), ("resistance", R)] =
        ohmsBranch (some V) none (some R) := rfl
    rw [hstep]
    simp only [ohmsBranch, tq_some_ne hV, tq_some_ne hR, tqv_ne hV, tqv_ne hR,
      pyDiv_ok hR, Option.getD_some, tq, Bool.and_false, Bool.false_and]
    rfl
  · have hstep : physicsBody "ohms_law" [("current", I), ("resistance", R)] =
        ohmsBranch none (some I) (some R) := rfl
    rw [hstep]
    simp only [ohmsBranch, tq_some_ne hI, tq_some_ne hR, tqv_ne hI, tqv_ne hR,
      Option.getD_some, tq, Bool.and_false, Bool.false_and]
    rfl

unseal Rat.add Rat.sub Rat.mul Rat.inv Rat.ofScientific in
/-- Witness for C4_ohms_pairs at voltage 12, current 2 (resistance slot
filled with 3 to discharge the remaining hypothesis): resistance 6 ohms
and power 24 watts, as the spec example states. -/
theorem C4_witness :
    (12 : ℚ) ≠ 0 ∧ (2 : ℚ) ≠ 0 ∧ (3 : ℚ) ≠ 0 ∧
    physicsBody "ohms_law" [("voltage", 12), ("current", 2)] =
      .ok (.ret (.ok (.map [("resistance", 6), ("power", 24)])
        (.um [("resistance", "Ω (Ohms)"), ("power", "W (Watts)")])
        "V = IR, P = VI = I²R = V²/R")) := by
  refine ⟨by norm_num, by norm_num, by norm_num, ?_⟩
  have h := (C4_ohms_pairs 12 2 3 (by norm_num) (by norm_num) (by norm_num)).1
  rw [h]
  rfl

/-- Claim C5: the wave-equation round trip. With positive frequency f and
wavelength l, the first call returns speed f * l; feeding that speed back
with the wavelength omitted returns exactly l (the model computes over
exact rationals, so within floating-point tolerance holds a fortiori). -/
theorem C5_wave_round_trip (f l : ℚ) (hf : 0 < f) (hl : 0 < l) :
    physicsBody "wave_equation" [("frequency", f), ("wavelength", l)] =
      .ok (.ret (.ok (.num (f * l)) (.u "m/s") "v = fλ (or c = fλ for light)")) ∧
    physicsBody "wave_equation" [("frequency", f), ("speed", f * l)] =
      .ok (.ret (.ok (.num l) (.u "m") "λ = c/f")) := by
  constructor
  · have hstep : physicsBody "wave_equation" [("frequency", f), ("wavelength", l)] =
        waveBranch (some f) (some l) 3e8 := rfl
    rw [hstep]
    simp only [waveBranch, tq_some_ne hf.ne', tq_some_ne hl.ne', Option.getD_some]
    rfl
  · have hstep : physicsBody "wave_equation" [("frequency", f), ("speed", f * l)] =
        waveBranch (some f) none (f * l) := rfl
    rw [hstep]
    simp only [waveBranch, tq_some_ne hf.ne', tqv_ne hf.ne',
      tqv_ne (mul_ne_zero hf.ne' hl.ne'), pyDiv_ok hf.ne', Option.getD_some, tq,
      Bool.and_false]
    rw [mul_div_cancel_left₀ l hf.ne']
    rfl

unseal Rat.add Rat.sub Rat.mul Rat.inv Rat.ofScientific in
/-- Witness for C5_wave_round_trip at frequency 2 and wavelength 3: the
speed is 6 and feeding it back returns wavelength 3. -/
theorem C5_witness :
    (0 : ℚ) < 2 ∧ (0 : ℚ) < 3 ∧
    physicsBody "wave_equation" [("frequency", 2), ("wavelength", 3)] =
      .ok (.ret (.ok (.num 6) (.u "m/s") "v = fλ (or c = fλ for light)")) ∧
    physicsBody "wave_equation" [("frequency", 2), ("speed", 6)] =
      .ok (.ret (.ok (.num 3) (.u "m") "λ = c/f")) := by
  have h := C5_wave_round_trip 2 3 (by norm_num) (by norm_num)
  refine ⟨by norm_num, by norm_num, ?_, ?_⟩
  · rw [h.1]; rfl
  · have h2 := h.2
    rw [show (2 : ℚ) * 3 = 6 by norm_num] at h2
    rw [h2]

unseal Rat.add Rat.sub Rat.mul Rat.inv Rat.ofScientific in
/-- Claim C9: in the multi-directional laws presence is tested by Python
truthiness, so a parameter supplied as 0 is treated as absent: ohms_law
with voltage 0 falls through to the need-two error for every current;
snells_law with theta1 = 0 falls through to its parameter error for all
n1, n2; and wave_equation with frequency 0 and nonzero wavelength l
treats the frequency as absent, computing frequency = (default speed)/l
instead of a zero speed. -/
theorem C9_zero_treated_as_absent :
    (∀ I : ℚ, physicsBody "ohms_law" [("voltage", 0), ("current", I)] =
      .ok (.ret (.errS "Need at least 2 of: voltage (V), current (I), resistance (R)"))) ∧
    (∀ n1 n2 : ℚ, physicsBody "snells_law" [("n1", n1), ("n2", n2), ("theta1", 0)] =
      .ok (.ret (.errS "Need refractive indices n1, n2 and incident angle theta1"))) ∧
    (∀ l : ℚ, l ≠ 0 → physicsBody "wave_equation" [("frequency", 0), ("wavelength", l)] =
      .ok (.ret (.ok (.num ((3e8 : ℚ) / l)) (.u "Hz") "f = c/λ"))) := by
  refine ⟨?_, ?_, ?_⟩
  · intro I
    have hstep : physicsBody "ohms_law" [("voltage", 0), ("current", I)] =
        ohmsBranch (some 0) (some I) none := rfl
    rw [hstep]
    simp [ohmsBranch, tq, tqv]
  · intro n1 n2
    have hstep : physicsBody "snells_law" [("n1", n1), ("n2", n2), ("theta1", 0)] =
        snellBranch (some n1) (some n2) (some 0) := rfl
    rw [hstep]
    simp [snellBranch, tq, tqv]
  · intro l hl
    have hstep : physicsBody "wave_equation" [("frequency", 0), ("wavelength", l)] =
        waveBranch (some 0) (some l) 3e8 := rfl
    rw [hstep]
    have htc : tqv (3e8 : ℚ) = true := by decide
    simp only [waveBranch, tq, tqv_ne hl, htc, Option.getD_some, pyDiv_ok hl]
    rfl

unseal Rat.add Rat.sub Rat.mul Rat.inv Rat.ofScientific in
/-- Witness for C9_zero_treated_as_absent at the inputs the claim names:
ohms_law(voltage=0, current=2) and snells_law(n1=1.5, n2=1, theta1=0)
fail, and wave_equation(frequency=0, wavelength=5) returns 3e8/5 hertz. -/
theorem C9_witness :
    physicsBody "ohms_law" [("voltage", 0), ("current", 2)] =
      .ok (.ret (.errS "Need at least 2 of: voltage (V), current (I), resistance (R)")) ∧
    physicsBody "snells_law" [("n1", 1.5), ("n2", 1), ("theta1", 0)] =
      .ok (.ret (.errS "Need refractive indices n1, n2 and incident angle theta1")) ∧
    (5 : ℚ) ≠ 0 ∧
    physicsBody "wave_equation" [("frequency", 0), ("wavelength", 5)] =
      .ok (.ret (.ok (.num 60000000) (.u "Hz") "f = c/λ")) := by
  refine ⟨C9_zero_treated_as_absent.1 2, C9_zero_treated_as_absent.2.1 1.5 1,
    by norm_num, ?_⟩
  have h := C9_zero_treated_as_absent.2.2 5 (by norm_num)
  rw [h]
  rfl

/-- Claim C7: for truthy refractive indices and incident angle, when
abs(n1 * sin(radians theta1) / n2) exceeds 1 the resolver fails with the
total-internal-reflection error — a message distinct from every
Calculation error message the except handler can produce — and otherwise
it returns the refracted angle in degrees. -/
theorem C7_snell_total_internal_reflection (n1 n2 theta1 : ℚ)
    (h1 : n1 ≠ 0) (h2 : n2 ≠ 0) (h3 : theta1 ≠ 0) :
    (1 < |sinTheta2 n1 n2 theta1| →
      PhysicsCalc "snells_law" [("n1", n1), ("n2", n2), ("theta1", theta1)]
        (.errS "Total internal reflection occurs - no refracted ray") ∧
      ∀ ex : PyExn, ("Total internal reflection occurs - no refracted ray" : String) ≠
        "Calculation error: " ++ exnStr ex) ∧
    (¬ 1 < |sinTheta2 n1 n2 theta1| →
      PhysicsCalc "snells_law" [("n1", n1), ("n2", n2), ("theta1", theta1)]
        (.okAngle (Real.arcsin (sinTheta2 n1 n2 theta1) * 180 / Real.pi) "degrees"
          "n₁sin(θ₁) = n₂sin(θ₂)")) := by
  have hbody : physicsBody "snells_law" [("n1", n1), ("n2", n2), ("theta1", theta1)] =
      .ok (.snell n1 n2 theta1) := by
    have hstep : physicsBody "snells_law" [("n1", n1), ("n2", n2), ("theta1", theta1)] =
        snellBranch (some n1) (some n2) (some theta1) := rfl
    rw [hstep]
    simp only [snellBranch, tq_some_ne h1, tq_some_ne h2, tq_some_ne h3, Option.getD_some]
    rfl
  constructor
  · intro hgt
    exact ⟨PhysicsCalc.tir n1 n2 theta1 hbody hgt, fun ex => by cases ex <;> decide⟩
  · intro hle
    exact PhysicsCalc.refr n1 n2 theta1 hbody hle

/-- Witness for C7 at n1 = 1.5, n2 = 1, theta1 = 60 degrees: the sine
magnitude is 3 * sqrt 3 / 4 > 1, so the call fails with total internal
reflection, as the spec example states. -/
theorem C7_witness :
    (1.5 : ℚ) ≠ 0 ∧ (1 : ℚ) ≠ 0 ∧ (60 : ℚ) ≠ 0 ∧
    1 < |sinTheta2 1.5 1 60| ∧
    PhysicsCalc "snells_law" [("n1", 1.5), ("n2", 1), ("theta1", 60)]
      (.errS "Total internal reflection occurs - no refracted ray") := by
  have hs : sinTheta2 1.5 1 60 = 3 * Real.sqrt 3 / 4 := by
    unfold sinTheta2
    rw [show ((60 : ℚ) : ℝ) * Real.pi / 180 = Real.pi / 3 by push_cast; ring]
    rw [Real.sin_pi_div_three]
    push_cast
    ring
  have hgt : 1 < |sinTheta2 1.5 1 60| := by
    rw [hs, abs_of_nonneg (by positivity)]
    nlinarith [Real.sq_sqrt (show (0:ℝ) ≤ 3 by norm_num), Real.sqrt_nonneg 3]
  refine ⟨by norm_num, by norm_num, by norm_num, hgt, ?_⟩
  exact ((C7_snell_total_internal_reflection 1.5 1 60 (by norm_num) (by norm_num)
    (by norm_num)).1 hgt).1
